import Mathlib

/-!
Verification development for the `nonwordgen` word generator.

We give a shallow embedding of the core modules:
- `nonwordgen/phonotactics.py` (syllable-based candidate builder),
- `nonwordgen/generator.py` (rejection-sampling `WordGenerator`),
- `nonwordgen/dictionaries.py` (dictionary backends),
- `nonwordgen/languages/__init__.py` (language-plugin registry),
and prove the specified properties about them.

Randomness is modelled by an explicit stream of natural numbers
(`RandStream`) together with a cursor position: `rng.randint(a, b)` maps the
next stream value into `[a, b]`, and `rng.choice(seq)` turns the next stream
value into an index into `seq`.  Every Python function that consumes
randomness takes the stream and the cursor and returns the advanced cursor,
so a fixed stream corresponds to a fixed seed.
-/

/-- A random source: an infinite supply of draws, consumed left to right. -/
def RandStream : Type := Nat → Nat

/-- `rng.randint(lo, hi)`: uniform draw from `[lo, hi]` (defined for `lo ≤ hi`),
consuming one stream element. -/
def randint (s : RandStream) (k lo hi : Nat) : Nat × Nat :=
  (lo + s k % (hi + 1 - lo), k + 1)

/-- `rng.choice(seq)`: pick one element of `seq`, consuming one stream element.
Faithful for non-empty `seq` (Python raises `IndexError` on an empty one). -/
def choose (s : RandStream) (k : Nat) (seq : List String) : String × Nat :=
  (seq.getD (s k % seq.length) "", k + 1)

/-- Python `str.lower()` (ASCII case folding, as used by this code base). -/
def strLower (s : String) : String := ⟨s.data.map Char.toLower⟩

/-- Python slicing `s[:n]`. -/
def strTake (s : String) (n : Nat) : String := ⟨s.data.take n⟩

/-- Python `"".join(pieces)`. -/
def strConcatList : List String → String
  | [] => ""
  | x :: xs => x ++ strConcatList xs

/-- Three identical consecutive characters somewhere in the list
(the `range(len - 2)` loop of `_has_ugly_patterns`). -/
def hasTripleRun : List Char → Bool
  | a :: b :: c :: rest => (a == b && b == c) || hasTripleRun (b :: c :: rest)
  | _ => false

/-- Python `needle in hay` on strings, over the underlying character lists. -/
def listHasSub : List Char → List Char → Bool
  | [], needle => needle.isEmpty
  | hay@(_ :: t), needle => needle.isPrefixOf hay || listHasSub t needle

/-- `nonwordgen/phonotactics.py::_has_ugly_patterns`. -/
def hasUglyPatterns (word : String) : Bool :=
  let lowered := strLower word
  if lowered.length < 3 then false
  else
    hasTripleRun lowered.data
      || listHasSub lowered.data "qq".data
      || listHasSub lowered.data "yyy".data

/-- The syllable assembled from the three draws starting at cursor `k`
(`onset + nucleus + coda` in `build_candidate_from_profile`). -/
def drawnSyllable (s : RandStream) (k : Nat)
    (onsets nuclei codas : List String) : String :=
  (choose s k onsets).1 ++ (choose s (k + 1) nuclei).1 ++ (choose s (k + 2) codas).1

/-- The inner `for _ in range(syllable_target)` loop of
`build_candidate_from_profile`: draw syllables, stop early when a syllable
would overshoot `maxLength` and at least one syllable is already kept, or once
the accumulated length reaches `maxLength`. Returns the kept pieces and the
advanced cursor. -/
def buildLoop (s : RandStream) (onsets nuclei codas : List String)
    (maxLength : Nat) :
    Nat → Nat → List String → Nat → List String × Nat
  | 0, k, pieces, _ => (pieces, k)
  | remaining + 1, k, pieces, lengthSoFar =>
      let syllable := drawnSyllable s k onsets nuclei codas
      let projected := lengthSoFar + syllable.length
      if projected > maxLength ∧ pieces ≠ [] then (pieces, k + 3)
      else if projected ≥ maxLength then (pieces ++ [syllable], k + 3)
      else buildLoop s onsets nuclei codas maxLength remaining (k + 3)
        (pieces ++ [syllable]) projected

/-- One round of the outer retry loop of `build_candidate_from_profile`:
draw the syllable target, run the syllable loop, lowercase the concatenation
and hard-truncate it to `maxLength`.  Returns the candidate and the advanced
cursor. -/
def attemptResult (s : RandStream) (minSyllables maxSyllables maxLength : Nat)
    (onsets nuclei codas : List String) (k : Nat) : String × Nat :=
  let tgt := randint s k minSyllables maxSyllables
  let bl := buildLoop s onsets nuclei codas maxLength tgt.1 tgt.2 [] 0
  let lowered := strLower (strConcatList bl.1)
  (if maxLength < lowered.length then strTake lowered maxLength else lowered,
    bl.2)

/-- The outer retry loop of `build_candidate_from_profile` (at most
`_MAX_PATTERN_ATTEMPTS = 8` rounds): build one candidate per round, keep it
as `last_candidate` when non-empty, and return it at once when it has no ugly
pattern.  When the rounds are exhausted, return the last non-empty candidate,
or a single random lowercased nucleus. -/
def buildAttempts (s : RandStream) (minSyllables maxSyllables maxLength : Nat)
    (onsets nuclei codas : List String) :
    Nat → Nat → String → String × Nat
  | 0, k, lastCandidate =>
      if lastCandidate ≠ "" then (lastCandidate, k)
      else
        let nc := choose s k nuclei
        (strLower nc.1, nc.2)
  | attempts + 1, k, lastCandidate =>
      let ar := attemptResult s minSyllables maxSyllables maxLength
        onsets nuclei codas k
      if ar.1 = "" then
        buildAttempts s minSyllables maxSyllables maxLength onsets nuclei codas
          attempts ar.2 lastCandidate
      else if hasUglyPatterns ar.1 = false then ar
      else
        buildAttempts s minSyllables maxSyllables maxLength onsets nuclei codas
          attempts ar.2 ar.1

/-- `nonwordgen/phonotactics.py::build_candidate_from_profile`.
Validates the bounds (mirroring the three `ValueError`s) and then runs the
retry loop. -/
def build_candidate_from_profile (s : RandStream) (k : Nat)
    (minSyllables maxSyllables maxLength : Nat)
    (onsets nuclei codas : List String) : Except String (String × Nat) :=
  if minSyllables < 1 then .error "min_syllables must be at least 1."
  else if maxSyllables < minSyllables then
    .error "min_syllables cannot exceed max_syllables."
  else if maxLength < 1 then .error "max_length must be at least 1."
  else .ok (buildAttempts s minSyllables maxSyllables maxLength
    onsets nuclei codas 8 k "")

/-- `nonwordgen/phonotactics.py::ONSETS`. -/
def ONSETS : List String :=
  ["", "b", "c", "d", "f", "g", "h", "j", "k", "l", "m", "n", "p", "q", "r",
   "s", "t", "v", "w", "y", "z", "bl", "br", "cl", "cr", "dr", "fl", "fr",
   "gl", "gr", "pl", "pr", "sl", "sm", "sn", "sp", "st", "str", "sw", "tr",
   "ch", "sh", "th", "wh"]

/-- `nonwordgen/phonotactics.py::NUCLEI`. -/
def NUCLEI : List String :=
  ["a", "e", "i", "o", "u", "aa", "ae", "ai", "au", "ea", "ee", "ei", "ia",
   "ie", "io", "oa", "oe", "oi", "oo", "ou", "ua", "ue", "ui"]

/-- `nonwordgen/phonotactics.py::CODAS`. -/
def CODAS : List String :=
  ["", "b", "d", "f", "g", "h", "k", "l", "m", "n", "p", "r", "s", "t", "v",
   "x", "y", "z", "ck", "ft", "ld", "lk", "lm", "lp", "lt", "mp", "nd", "ng",
   "nk", "nt", "pt", "rd", "rk", "rn", "rst", "rt", "sh", "sk", "sp", "st",
   "th", "ts", "ch"]

/-- `nonwordgen/phonotactics.py::build_candidate` (the fixed English profile). -/
def build_candidate (s : RandStream) (k : Nat)
    (minSyllables maxSyllables maxLength : Nat) : Except String (String × Nat) :=
  build_candidate_from_profile s k minSyllables maxSyllables maxLength
    ONSETS NUCLEI CODAS

/-- Errors raised by `WordGenerator`: `ValueError` for inconsistent
configuration, `RuntimeError` when the attempt budget is exhausted. -/
inductive GenError where
  | invalidConfig : String → GenError
  | exhausted : String → GenError
deriving DecidableEq

/-- Post-construction state of `nonwordgen/generator.py::WordGenerator`.
`banned_lower` is the constructor's `{word.lower() for word in banned_words}`;
`dict` is the judgment function of the active dictionary backend
(`self._dictionary.is_real_word`). -/
structure WordGenerator where
  min_length : Nat
  max_length : Nat
  min_syllables : Nat
  max_syllables : Nat
  allow_real_words : Bool
  banned_lower : List String
  dict : String → Bool

/-- `WordGenerator.__init__`: the four fail-fast bound checks, then the state
(with the ban list lowercased). -/
def WordGenerator.make (minLength maxLength minSyllables maxSyllables : Nat)
    (allowRealWords : Bool) (bannedWords : List String) (d : String → Bool) :
    Except String WordGenerator :=
  if minLength < 1 then .error "min_length must be at least 1."
  else if maxLength < minLength then .error "max_length must be >= min_length."
  else if minSyllables < 1 then .error "min_syllables must be at least 1."
  else if maxSyllables < minSyllables then
    .error "max_syllables must be >= min_syllables."
  else .ok ⟨minLength, maxLength, minSyllables, maxSyllables, allowRealWords,
    bannedWords.map strLower, d⟩

/-- The `for _ in range(max_attempts)` loop of `generate_one`: build one
candidate with the English builder, skip it when its length is out of bounds,
when it is banned, or when real-word filtering is on and the dictionary flags
it; otherwise return it.  `budget` is the original `max_attempts`, used in the
`RuntimeError` message. -/
def genLoop (g : WordGenerator) (s : RandStream) (budget : Int) :
    Nat → Nat → Except GenError (String × Nat)
  | 0, _ =>
      .error (.exhausted
        ("Unable to generate a non-word that satisfies the constraints after "
          ++ toString budget ++ " attempts."))
  | n + 1, k =>
      match build_candidate s k g.min_syllables g.max_syllables g.max_length with
      | .error e => .error (.invalidConfig e)
      | .ok (candidate, k2) =>
          if candidate.length < g.min_length ∨ g.max_length < candidate.length then
            genLoop g s budget n k2
          else if g.banned_lower.contains candidate then genLoop g s budget n k2
          else if g.allow_real_words = false ∧ g.dict candidate = true then
            genLoop g s budget n k2
          else .ok (candidate, k2)

/-- `nonwordgen/generator.py::WordGenerator.generate_one`. -/
def generate_one (g : WordGenerator) (s : RandStream) (k : Nat)
    (maxAttempts : Int) : Except GenError (String × Nat) :=
  if maxAttempts < 1 then .error (.invalidConfig "max_attempts must be at least 1.")
  else genLoop g s maxAttempts maxAttempts.toNat k

/-- The `while len(results) < count` loop of `generate_many`.  `seen` is
`some s` when `unique=True` and `none` otherwise.  `fuel` bounds the number of
iterations we unfold (the Python loop has no cap of its own); `.ok none` means
the loop was still running after `fuel` iterations. -/
def manyLoop (g : WordGenerator) (s : RandStream) (count : Nat) :
    Nat → Nat → List String → Option (List String) →
    Except GenError (Option (List String × Nat))
  | 0, _, _, _ => .ok none
  | fuel + 1, k, results, seen =>
      if count ≤ results.length then .ok (some (results, k))
      else
        match generate_one g s k 1000 with
        | .error e => .error e
        | .ok (word, k2) =>
            match seen with
            | some sn =>
                if sn.contains word then manyLoop g s count fuel k2 results seen
                else manyLoop g s count fuel k2 (results ++ [word]) (some (word :: sn))
            | none => manyLoop g s count fuel k2 (results ++ [word]) none

/-- `nonwordgen/generator.py::WordGenerator.generate_many`. -/
def generate_many (g : WordGenerator) (s : RandStream) (k : Nat) (count : Int)
    (unique : Bool) (fuel : Nat) : Except GenError (Option (List String × Nat)) :=
  if count < 1 then .error (.invalidConfig "count must be at least 1.")
  else manyLoop g s count.toNat fuel k [] (if unique then some [] else none)

/-- Outcome of one call to the external `wordfreq.zipf_frequency` lookup:
either a frequency score, or one of the two exception classes the backend
distinguishes (`LookupError` versus any other `Exception`). -/
inductive LookupOutcome where
  | score : ℚ → LookupOutcome
  | raiseLookup : LookupOutcome
  | raiseOther : LookupOutcome

/-- Behaviour of the external lookup: the outcome of its `n`-th call, given
the queried word. -/
def LookupSource : Type := Nat → String → LookupOutcome

/-- State of `nonwordgen/dictionaries.py::WordfreqDictionary` (the current
version, with the construction-time probe and the runtime self-disable).
`callIdx` counts calls made to the external lookup so far. -/
structure WordfreqDictionary where
  language : String
  min_zipf : ℚ
  enabled : Bool
  available : Bool
  callIdx : Nat

/-- `WordfreqDictionary.__init__` with external source `src` (`none` models
`wordfreq` not being installed).  The probe query consumes call 0; `available`
is set only when the probe succeeds, and any probe exception merely disables
the backend. -/
def WordfreqDictionary.make (src : Option LookupSource) (language : String)
    (minZipf : ℚ) : WordfreqDictionary :=
  match src with
  | none =>
      { language := language, min_zipf := minZipf, enabled := false,
        available := false, callIdx := 0 }
  | some f =>
      match f 0 "probe" with
      | .score _ =>
          { language := language, min_zipf := minZipf, enabled := true,
            available := true, callIdx := 1 }
      | .raiseLookup =>
          { language := language, min_zipf := minZipf, enabled := false,
            available := false, callIdx := 1 }
      | .raiseOther =>
          { language := language, min_zipf := minZipf, enabled := false,
            available := false, callIdx := 1 }

/-- `WordfreqDictionary.is_real_word`: returns the verdict and the updated
backend state.  A disabled backend answers `false` without touching the
external source; an exception from the source yields `false` and permanently
disables the backend (every `except` branch returns, so no exception ever
propagates — hence the plain, total return type). -/
def WordfreqDictionary.is_real_word (src : Option LookupSource)
    (d : WordfreqDictionary) (word : String) : Bool × WordfreqDictionary :=
  if d.enabled = false then (false, d)
  else
    match src with
    | none => (false, { d with enabled := false })
    | some f =>
        match f d.callIdx word with
        | .score q => (decide (d.min_zipf ≤ q), { d with callIdx := d.callIdx + 1 })
        | .raiseLookup => (false, { d with enabled := false, callIdx := d.callIdx + 1 })
        | .raiseOther => (false, { d with enabled := false, callIdx := d.callIdx + 1 })

/-- Run a sequence of `is_real_word` queries, threading the backend state. -/
def runQueries (src : Option LookupSource) :
    WordfreqDictionary → List String → List Bool × WordfreqDictionary
  | d, [] => ([], d)
  | d, w :: ws =>
      let r := WordfreqDictionary.is_real_word src d w
      let rest := runQueries src r.2 ws
      (r.1 :: rest.1, rest.2)

/-- `nonwordgen/dictionaries.py::CompositeDictionary` state: the ordered list
of constituent backends, each modelled by its judgment function. -/
structure CompositeDictionary where
  backends : List (String → Bool)

/-- `CompositeDictionary.__init__`: fails on an empty backend list. -/
def CompositeDictionary.make (backends : List (String → Bool)) :
    Except String CompositeDictionary :=
  if backends.isEmpty then
    .error "CompositeDictionary requires at least one backend."
  else .ok ⟨backends⟩

/-- `CompositeDictionary.is_real_word`:
`any(backend.is_real_word(word) for backend in self.backends)` —
a left-to-right, short-circuiting OR. -/
def CompositeDictionary.is_real_word (c : CompositeDictionary) (word : String) :
    Bool :=
  c.backends.any (fun b => b word)

/-- A language plugin, as far as the registry claims are concerned: its
registered name. -/
structure LanguagePluginModel where
  name : String
deriving DecidableEq

/-- Python `dict` insertion: overwriting an existing key keeps its position,
a new key is appended. -/
def dictInsert (m : List (String × LanguagePluginModel)) (key : String)
    (v : LanguagePluginModel) : List (String × LanguagePluginModel) :=
  if m.any (fun kv => kv.1 == key) then
    m.map (fun kv => if kv.1 == key then (key, v) else kv)
  else m ++ [(key, v)]

/-- `nonwordgen/languages/__init__.py::register_language`:
`_REGISTERED_PLUGINS[plugin.name.lower()] = plugin`. -/
def register_language (m : List (String × LanguagePluginModel))
    (p : LanguagePluginModel) : List (String × LanguagePluginModel) :=
  dictInsert m (strLower p.name) p

/-- The registry after the module-level `register_language(...)` calls, in
source order (each plugin's `name` attribute, taken from its class). -/
def registeredPlugins : List (String × LanguagePluginModel) :=
  [⟨"english"⟩, ⟨"french"⟩, ⟨"german"⟩, ⟨"hindi"⟩, ⟨"indonesian"⟩,
   ⟨"italian"⟩, ⟨"tagalog"⟩, ⟨"korean"⟩, ⟨"portuguese"⟩, ⟨"spanish"⟩,
   ⟨"swahili"⟩, ⟨"turkish"⟩, ⟨"russian"⟩, ⟨"vietnamese"⟩, ⟨"dutch"⟩,
   ⟨"romanian"⟩, ⟨"swedish"⟩, ⟨"norwegian"⟩,
   ⟨"danish"⟩].foldl register_language []

/-- The registry's key set, in insertion order. -/
def registryKeys : List String := registeredPlugins.map (fun kv => kv.1)

/-- Code-point comparison of characters. -/
def charLtB (a b : Char) : Bool := decide (a.toNat < b.toNat)

/-- Lexicographic comparison of character lists by code point. -/
def listLtB : List Char → List Char → Bool
  | [], [] => false
  | [], _ :: _ => true
  | _ :: _, [] => false
  | a :: as, b :: bs =>
      if a.toNat = b.toNat then listLtB as bs else charLtB a b

/-- Python's `<` on strings: lexicographic by code point. -/
def strLtB (a b : String) : Bool := listLtB a.data b.data

/-- Boolean `a ≤ b` on strings (Python's lexicographic string comparison). -/
def strLeB (a b : String) : Bool := !(strLtB b a)

/-- Insertion into a `strLeB`-sorted list. -/
def insertSorted (x : String) : List String → List String
  | [] => [x]
  | y :: ys => if strLeB x y then x :: y :: ys else y :: insertSorted x ys

/-- Python `sorted` on a list of strings (modelled by insertion sort). -/
def sortStrings (l : List String) : List String := l.foldr insertSorted []

/-- `nonwordgen/languages/__init__.py::available_languages`:
`sorted(_REGISTERED_PLUGINS)`. -/
def available_languages : List String := sortStrings registryKeys

/-- Python `", ".join(items)`. -/
def joinCommaSep : List String → String
  | [] => ""
  | [x] => x
  | x :: y :: rest => x ++ ", " ++ joinCommaSep (y :: rest)

/-- `nonwordgen/languages/__init__.py::get_language_plugin`. -/
def get_language_plugin (name : Option String) :
    Except String LanguagePluginModel :=
  let key := strLower (match name with | some n => n | none => "english")
  match registeredPlugins.find? (fun kv => kv.1 == key) with
  | some kv => .ok kv.2
  | none =>
      .error ("Unknown language '"
        ++ (match name with | some n => n | none => "None")
        ++ "'. Available languages: " ++ joinCommaSep available_languages ++ ".")

/-- The attempt loop of `generate_one`, parameterised by the candidate
builder, for comparison with the fixed-builder `genLoop`. -/
def genLoopWith
    (builder : RandStream → Nat → Nat → Nat → Nat → Except String (String × Nat))
    (g : WordGenerator) (s : RandStream) (budget : Int) :
    Nat → Nat → Except GenError (String × Nat)
  | 0, _ =>
      .error (.exhausted
        ("Unable to generate a non-word that satisfies the constraints after "
          ++ toString budget ++ " attempts."))
  | n + 1, k =>
      match builder s k g.min_syllables g.max_syllables g.max_length with
      | .error e => .error (.invalidConfig e)
      | .ok (candidate, k2) =>
          if candidate.length < g.min_length ∨ g.max_length < candidate.length then
            genLoopWith builder g s budget n k2
          else if g.banned_lower.contains candidate then
            genLoopWith builder g s budget n k2
          else if g.allow_real_words = false ∧ g.dict candidate = true then
            genLoopWith builder g s budget n k2
          else .ok (candidate, k2)

/-- `generate_one`, parameterised by the candidate builder (what the claimed
plugin-aware generator would run with the active plugin's builder). -/
def generateOneWith
    (builder : RandStream → Nat → Nat → Nat → Nat → Except String (String × Nat))
    (g : WordGenerator) (s : RandStream) (k : Nat) (maxAttempts : Int) :
    Except GenError (String × Nat) :=
  if maxAttempts < 1 then .error (.invalidConfig "max_attempts must be at least 1.")
  else genLoopWith builder g s maxAttempts maxAttempts.toNat k

/-- The builder `generate_one` actually uses: the fixed English profile. -/
def englishBuilder :
    RandStream → Nat → Nat → Nat → Nat → Except String (String × Nat) :=
  fun s k minSyllables maxSyllables maxLength =>
    build_candidate_from_profile s k minSyllables maxSyllables maxLength
      ONSETS NUCLEI CODAS

/-- The random stream of the C3 counterexample: every draw is 0 except the
one the fallback `rng.choice(nuclei)` consumes (cursor 32), which picks the
two-character nucleus. -/
def cexStream : RandStream := fun k => if k = 32 then 1 else 0

/-- The all-zeroes random stream (used for concrete witnesses). -/
def zeroStream : RandStream := fun _ => 0

/-- A dictionary backend that never flags anything. -/
def neverReal : String → Bool := fun _ => false

/-- Witness generator: bounds 1–10, one syllable, ban list `["The"]`. -/
def witGen : WordGenerator :=
  ⟨1, 10, 1, 1, false, ["the"], neverReal⟩

/-- Witness generator whose ban list contains `"a"`, so that the all-zeroes
stream (whose candidates are always `"a"`) exhausts any attempt budget. -/
def banAGen : WordGenerator :=
  ⟨1, 10, 1, 1, false, ["a"], neverReal⟩

/-- Random stream for the `generate_many` witness: draw 6 (the nucleus of the
second word) picks index 1, so the first two accepted words are `"a"`, `"e"`. -/
def c7Stream : RandStream := fun k => if k = 6 then 1 else 0

/-- Backends of the composite-dictionary witness (the spec's `{"glow"}` and
`{"brim"}` example). -/
def glowBrimBackends : List (String → Bool) :=
  [fun w => w == "glow", fun w => w == "brim"]

/-- External lookup that always raises `LookupError` (an unsupported
language/wordlist combination). -/
def alwaysLookupError : LookupSource := fun _ _ => .raiseLookup

/-- External lookup that always raises a non-`LookupError` exception. -/
def alwaysOtherError : LookupSource := fun _ _ => .raiseOther

/-- A wordfreq backend state that is live (probe succeeded, one call made). -/
def liveWordfreq : WordfreqDictionary :=
  ⟨"en", 3, true, true, 1⟩

/-! ## Helper lemmas -/

theorem disabled_runQueries_false (src : Option LookupSource) :
    ∀ (words : List String) (d : WordfreqDictionary), d.enabled = false →
      (∀ b ∈ (runQueries src d words).1, b = false)
      ∧ (runQueries src d words).2.enabled = false := by
  intro words
  induction words with
  | nil => intro d hd; exact ⟨by intro b hb; simp [runQueries] at hb, hd⟩
  | cons w ws ih =>
      intro d hd
      have hstep : WordfreqDictionary.is_real_word src d w = (false, d) := by
        simp [WordfreqDictionary.is_real_word, hd]
      constructor
      · intro b hb
        simp only [runQueries, hstep] at hb
        rcases List.mem_cons.mp hb with h | h
        · exact h
        · exact ((ih d hd).1) b h
      · simp only [runQueries, hstep]
        exact (ih d hd).2

/-! ## Claim theorems -/

/-- Claim C4: a `WordfreqDictionary` whose data source is missing
(`wordfreq` not installed) or whose construction probe raises (unsupported
language/wordlist) has `available = false` and answers `false` to every query
without raising (the embedding is a total function: every `except` branch
returns); and a query whose external lookup raises at runtime returns `false`,
permanently disables the backend, and every subsequent query returns `false`. -/
theorem C4_wordfreq_degradation :
    (∀ (src : Option LookupSource) (lang : String) (z : ℚ),
      (src = none ∨ ∃ f, src = some f ∧
        (f 0 "probe" = .raiseLookup ∨ f 0 "probe" = .raiseOther)) →
      (WordfreqDictionary.make src lang z).available = false
      ∧ ∀ (words : List String),
          ∀ b ∈ (runQueries src (WordfreqDictionary.make src lang z) words).1,
            b = false)
    ∧ (∀ (f : LookupSource) (d : WordfreqDictionary) (word : String),
        d.enabled = true →
        (f d.callIdx word = .raiseLookup ∨ f d.callIdx word = .raiseOther) →
        (d.is_real_word (some f) word).1 = false
        ∧ (d.is_real_word (some f) word).2.enabled = false
        ∧ ∀ (words : List String),
            ∀ b ∈ (runQueries (some f) (d.is_real_word (some f) word).2 words).1,
              b = false) := by
  constructor
  · intro src lang z hsrc
    have hmk : (WordfreqDictionary.make src lang z).enabled = false
        ∧ (WordfreqDictionary.make src lang z).available = false := by
      rcases hsrc with rfl | ⟨f, rfl, hf⟩
      · exact ⟨rfl, rfl⟩
      · rcases hf with hf | hf <;>
          simp [WordfreqDictionary.make, hf]
    exact ⟨hmk.2, fun words =>
      (disabled_runQueries_false src words _ hmk.1).1⟩
  · intro f d word hen hf
    have hq : d.is_real_word (some f) word
        = (false, { d with enabled := false, callIdx := d.callIdx + 1 }) := by
      rcases hf with hf | hf <;>
        simp [WordfreqDictionary.is_real_word, hen, hf]
    refine ⟨by rw [hq], by rw [hq], fun words => ?_⟩
    rw [hq]
    exact (disabled_runQueries_false (some f) words _ rfl).1

/-- Witness for C4: an always-`LookupError` source yields an unavailable
backend whose queries all return `false`; a live backend whose next external
call raises is disabled by that query. -/
theorem C4_wordfreq_degradation_witness :
    ((WordfreqDictionary.make (some alwaysLookupError) "th" 3).available = false
      ∧ ∀ b ∈ (runQueries (some alwaysLookupError)
          (WordfreqDictionary.make (some alwaysLookupError) "th" 3)
          ["cat", "dog"]).1, b = false)
    ∧ ((liveWordfreq.is_real_word (some alwaysOtherError) "cat").1 = false
      ∧ (liveWordfreq.is_real_word (some alwaysOtherError) "cat").2.enabled = false) :=
  ⟨⟨(C4_wordfreq_degradation.1 (some alwaysLookupError) "th" 3
        (Or.inr ⟨alwaysLookupError, rfl, Or.inl rfl⟩)).1,
      (C4_wordfreq_degradation.1 (some alwaysLookupError) "th" 3
        (Or.inr ⟨alwaysLookupError, rfl, Or.inl rfl⟩)).2 ["cat", "dog"]⟩,
    ⟨(C4_wordfreq_degradation.2 alwaysOtherError liveWordfreq "cat" rfl
        (Or.inr rfl)).1,
      (C4_wordfreq_degradation.2 alwaysOtherError liveWordfreq "cat" rfl
        (Or.inr rfl)).2.1⟩⟩

/-- Claim C5: `CompositeDictionary.is_real_word` is true iff some constituent
backend reports true (the evaluation is `List.any`, i.e. a left-to-right OR
with short-circuit, as the third conjunct's unfolding shows), and construction
from an empty backend list fails. -/
theorem C5_composite_or :
    (∃ msg, CompositeDictionary.make [] = .error msg)
    ∧ (∀ (bs : List (String → Bool)) (c : CompositeDictionary),
        CompositeDictionary.make bs = .ok c →
        ∀ w, (c.is_real_word w = true ↔ ∃ b ∈ bs, b w = true))
    ∧ (∀ (b : String → Bool) (bs : List (String → Bool)) (w : String),
        CompositeDictionary.is_real_word ⟨b :: bs⟩ w
          = (b w || CompositeDictionary.is_real_word ⟨bs⟩ w)) := by
  refine ⟨⟨"CompositeDictionary requires at least one backend.", rfl⟩, ?_, ?_⟩
  · intro bs c h w
    have hc : c = ⟨bs⟩ := by
      unfold CompositeDictionary.make at h
      split at h
      · cases h
      · exact (Except.ok.inj h).symm
    subst hc
    simp [CompositeDictionary.is_real_word, List.any_eq_true]
  · intro b bs w
    rfl

/-- Witness for C5, on the spec's example backends flagging `{"glow"}` and
`{"brim"}`: the composite flags `"brim"` and not `"snarp"`. -/
theorem C5_composite_or_witness :
    CompositeDictionary.make glowBrimBackends = .ok ⟨glowBrimBackends⟩
    ∧ (CompositeDictionary.is_real_word ⟨glowBrimBackends⟩ "brim" = true
        ↔ ∃ b ∈ glowBrimBackends, b "brim" = true)
    ∧ CompositeDictionary.is_real_word ⟨glowBrimBackends⟩ "brim" = true
    ∧ CompositeDictionary.is_real_word ⟨glowBrimBackends⟩ "snarp" = false :=
  ⟨rfl, C5_composite_or.2.1 glowBrimBackends ⟨glowBrimBackends⟩ rfl "brim",
    rfl, rfl⟩

theorem joinCommaSep_substring :
    ∀ (l : List String) (x : String), x ∈ l →
      ∃ p q, joinCommaSep l = p ++ x ++ q := by
  intro l
  induction l with
  | nil => intro x hx; cases hx
  | cons y rest ih =>
      intro x hx
      rcases List.mem_cons.mp hx with rfl | hx
      · cases rest with
        | nil =>
            exact ⟨"", "", by
              simp [joinCommaSep, String.empty_append, String.append_empty]⟩
        | cons z zs =>
            refine ⟨"", ", " ++ joinCommaSep (z :: zs), ?_⟩
            simp [joinCommaSep, String.empty_append, String.append_assoc]
      · cases rest with
        | nil => cases hx
        | cons z zs =>
            obtain ⟨p, q, hp⟩ := ih x hx
            refine ⟨y ++ ", " ++ p, q, ?_⟩
            simp only [joinCommaSep, hp, String.append_assoc]

theorem key_not_found (key : String) (hk : key ∉ registryKeys) :
    registeredPlugins.find? (fun kv => kv.1 == key) = none := by
  apply List.find?_eq_none.mpr
  intro kv hkv
  simp only [beq_iff_eq]
  intro heq
  exact hk (heq ▸ List.mem_map_of_mem (fun kv => kv.1) hkv)

/-- Claim C9: `get_language_plugin` defaults to the `"english"` key when no
name is given; an unregistered (lowercased) name yields an unknown-language
error whose message contains every registered name; `available_languages` is a
permutation of the registry's keys sorted strictly lexicographically. -/
theorem C9_registry_lookup :
    get_language_plugin none = .ok ⟨"english"⟩
    ∧ (∀ n : String, strLower n ∉ registryKeys →
        ∃ msg, get_language_plugin (some n) = .error msg
          ∧ ∀ lang ∈ available_languages, ∃ p q, msg = p ++ lang ++ q)
    ∧ List.Pairwise (fun a b => strLtB a b = true) available_languages
    ∧ available_languages.Perm registryKeys := by
  refine ⟨rfl, ?_, by decide, by decide⟩
  intro n hn
  refine ⟨"Unknown language '" ++ n
    ++ "'. Available languages: " ++ joinCommaSep available_languages ++ ".",
    ?_, ?_⟩
  · show (match registeredPlugins.find? (fun kv => kv.1 == strLower n) with
      | some kv => Except.ok kv.2
      | none =>
          Except.error ("Unknown language '" ++ n
            ++ "'. Available languages: "
            ++ joinCommaSep available_languages ++ ".")) = _
    rw [key_not_found (strLower n) hn]
  · intro lang hlang
    obtain ⟨p, q, hp⟩ := joinCommaSep_substring available_languages lang hlang
    refine ⟨("Unknown language '" ++ n ++ "'. Available languages: ") ++ p,
      q ++ ".", ?_⟩
    rw [hp]
    simp only [String.append_assoc]

/-- Witness for C9: `"klingon"` is not a registered key and produces the
enumerating unknown-language error. -/
theorem C9_registry_lookup_witness :
    strLower "klingon" ∉ registryKeys
    ∧ ∃ msg, get_language_plugin (some "klingon") = .error msg
        ∧ ∀ lang ∈ available_languages, ∃ p q, msg = p ++ lang ++ q :=
  ⟨by decide, C9_registry_lookup.2.1 "klingon" (by decide)⟩

theorem str_pos_of_ne (x : String) (h : x ≠ "") : 0 < x.length := by
  cases x with
  | mk l =>
      rw [String.length_mk]
      cases l with
      | nil => exact absurd rfl h
      | cons c cs => simp

theorem str_ne_of_pos (x : String) (h : 0 < x.length) : x ≠ "" := by
  intro he
  rw [he] at h
  exact absurd h (by decide)

theorem choose_fst_mem (s : RandStream) (k : Nat) (l : List String)
    (h : l ≠ []) : (choose s k l).1 ∈ l := by
  unfold choose
  have hlt : s k % l.length < l.length :=
    Nat.mod_lt _ (List.length_pos.mpr h)
  rw [List.getD_eq_getElem l "" hlt]
  exact List.getElem_mem hlt

theorem strLower_len (x : String) : (strLower x).length = x.length := by
  cases x with
  | mk l => simp [strLower, String.length_mk]

theorem strTake_len (x : String) (n : Nat) :
    (strTake x n).length = min n x.length := by
  cases x with
  | mk l => simp [strTake, String.length_mk]

theorem drawnSyllable_pos (s : RandStream) (k : Nat)
    (onsets nuclei codas : List String) (hnu : nuclei ≠ [])
    (hx : ∀ x ∈ nuclei, x ≠ "") :
    0 < (drawnSyllable s k onsets nuclei codas).length := by
  have hb : 0 < ((choose s (k + 1) nuclei).1).length :=
    str_pos_of_ne _ (hx _ (choose_fst_mem s (k + 1) nuclei hnu))
  simp only [drawnSyllable, String.length_append]
  omega

theorem attemptResult_le (s : RandStream)
    (minSyllables maxSyllables maxLength : Nat)
    (onsets nuclei codas : List String) (k : Nat) :
    (attemptResult s minSyllables maxSyllables maxLength
      onsets nuclei codas k).1.length ≤ maxLength := by
  simp only [attemptResult]
  split
  · rw [strTake_len]
    exact Nat.min_le_left _ _
  · next h => exact Nat.le_of_not_lt h

theorem buildLoop_extends (s : RandStream) (onsets nuclei codas : List String)
    (maxLength : Nat) :
    ∀ (r k : Nat) (pieces : List String) (len : Nat),
      ∃ t, (buildLoop s onsets nuclei codas maxLength r k pieces len).1
        = pieces ++ t := by
  intro r
  induction r with
  | zero => intro k pieces len; exact ⟨[], by simp [buildLoop]⟩
  | succ r ih =>
      intro k pieces len
      simp only [buildLoop]
      split
      · exact ⟨[], by simp⟩
      · split
        · exact ⟨[drawnSyllable s k onsets nuclei codas], rfl⟩
        · obtain ⟨t, ht⟩ := ih (k + 3)
            (pieces ++ [drawnSyllable s k onsets nuclei codas])
            (len + (drawnSyllable s k onsets nuclei codas).length)
          exact ⟨drawnSyllable s k onsets nuclei codas :: t,
            by rw [ht, List.append_assoc]; simp⟩

theorem buildLoop_first (s : RandStream) (onsets nuclei codas : List String)
    (maxLength r k len : Nat) :
    ∃ t, (buildLoop s onsets nuclei codas maxLength (r + 1) k [] len).1
      = drawnSyllable s k onsets nuclei codas :: t := by
  simp only [buildLoop]
  rw [if_neg (by simp)]
  split
  · exact ⟨[], rfl⟩
  · obtain ⟨t, ht⟩ := buildLoop_extends s onsets nuclei codas maxLength r
      (k + 3) ([] ++ [drawnSyllable s k onsets nuclei codas])
      (len + (drawnSyllable s k onsets nuclei codas).length)
    exact ⟨t, by rw [ht]; simp⟩

theorem attemptResult_ne (s : RandStream)
    (minSyllables maxSyllables maxLength : Nat)
    (onsets nuclei codas : List String) (k : Nat)
    (hminS : 1 ≤ minSyllables) (hmaxL : 1 ≤ maxLength)
    (hnu : nuclei ≠ []) (hx : ∀ x ∈ nuclei, x ≠ "") :
    (attemptResult s minSyllables maxSyllables maxLength
      onsets nuclei codas k).1 ≠ "" := by
  simp only [attemptResult]
  obtain ⟨r, hr⟩ : ∃ r, (randint s k minSyllables maxSyllables).1 = r + 1 := by
    have h1 : 1 ≤ (randint s k minSyllables maxSyllables).1 := by
      simp only [randint]; omega
    exact ⟨(randint s k minSyllables maxSyllables).1 - 1, by omega⟩
  rw [hr]
  obtain ⟨t, ht⟩ := buildLoop_first s onsets nuclei codas maxLength r
    (randint s k minSyllables maxSyllables).2 0
  rw [ht]
  have hsyl : 0 < (drawnSyllable s (randint s k minSyllables maxSyllables).2
      onsets nuclei codas).length :=
    drawnSyllable_pos s _ onsets nuclei codas hnu hx
  have hlen : 0 < (strLower (strConcatList
      (drawnSyllable s (randint s k minSyllables maxSyllables).2
        onsets nuclei codas :: t))).length := by
    rw [strLower_len]
    show 0 < (drawnSyllable s (randint s k minSyllables maxSyllables).2
      onsets nuclei codas ++ strConcatList t).length
    rw [String.length_append]
    omega
  split
  · apply str_ne_of_pos
    rw [strTake_len]
    omega
  · exact str_ne_of_pos _ hlen

theorem buildAttempts_step (s : RandStream)
    (minSyllables maxSyllables maxLength : Nat)
    (onsets nuclei codas : List String) (n k : Nat) (last : String) :
    buildAttempts s minSyllables maxSyllables maxLength onsets nuclei codas
        (n + 1) k last =
      if (attemptResult s minSyllables maxSyllables maxLength
          onsets nuclei codas k).1 = "" then
        buildAttempts s minSyllables maxSyllables maxLength onsets nuclei codas
          n (attemptResult s minSyllables maxSyllables maxLength
            onsets nuclei codas k).2 last
      else if hasUglyPatterns (attemptResult s minSyllables maxSyllables
          maxLength onsets nuclei codas k).1 = false then
        attemptResult s minSyllables maxSyllables maxLength onsets nuclei codas k
      else
        buildAttempts s minSyllables maxSyllables maxLength onsets nuclei codas
          n (attemptResult s minSyllables maxSyllables maxLength
            onsets nuclei codas k).2
          (attemptResult s minSyllables maxSyllables maxLength
            onsets nuclei codas k).1 := rfl

theorem buildAttempts_le (s : RandStream)
    (minSyllables maxSyllables maxLength : Nat)
    (onsets nuclei codas : List String) :
    ∀ (fuel k : Nat) (last : String), last ≠ "" → last.length ≤ maxLength →
      (buildAttempts s minSyllables maxSyllables maxLength
        onsets nuclei codas fuel k last).1.length ≤ maxLength := by
  intro fuel
  induction fuel with
  | zero =>
      intro k last h1 h2
      simp only [buildAttempts]
      rw [if_pos h1]
      exact h2
  | succ n ih =>
      intro k last h1 h2
      simp only [buildAttempts]
      split
      · exact ih _ last h1 h2
      · next h =>
          split
          · exact attemptResult_le s minSyllables maxSyllables maxLength
              onsets nuclei codas k
          · exact ih _ _ h (attemptResult_le s minSyllables maxSyllables
              maxLength onsets nuclei codas k)

/-- Claim C3 (amended): for every profile satisfying the data-model invariant
(non-empty onset/nucleus/coda lists, no empty nucleus), every random source,
every `maxLength ≥ 1` and valid syllable bounds, the candidate returned by
`build_candidate_from_profile` has length at most `maxLength`. -/
theorem C3_amended_builder_length_cap (s : RandStream)
    (k minSyllables maxSyllables maxLength : Nat)
    (onsets nuclei codas : List String)
    (h1 : 1 ≤ minSyllables) (h2 : minSyllables ≤ maxSyllables)
    (h3 : 1 ≤ maxLength)
    (_h4 : onsets ≠ []) (h5 : nuclei ≠ []) (_h6 : codas ≠ [])
    (h7 : ∀ x ∈ nuclei, x ≠ "")
    (w : String) (k2 : Nat)
    (h : build_candidate_from_profile s k minSyllables maxSyllables maxLength
      onsets nuclei codas = .ok (w, k2)) :
    w.length ≤ maxLength := by
  unfold build_candidate_from_profile at h
  rw [if_neg (by omega), if_neg (by omega), if_neg (by omega)] at h
  have hw : w = (buildAttempts s minSyllables maxSyllables maxLength
      onsets nuclei codas 8 k "").1 :=
    (congrArg Prod.fst (Except.ok.inj h)).symm
  rw [hw]
  show (buildAttempts s minSyllables maxSyllables maxLength
    onsets nuclei codas (7 + 1) k "").1.length ≤ maxLength
  rw [buildAttempts_step]
  split
  · next h0 =>
      exact absurd h0 (attemptResult_ne s minSyllables maxSyllables maxLength
        onsets nuclei codas k h1 h3 h5 h7)
  · next h0 =>
      split
      · exact attemptResult_le s minSyllables maxSyllables maxLength
          onsets nuclei codas k
      · exact buildAttempts_le s minSyllables maxSyllables maxLength
          onsets nuclei codas 7 _ _ h0
          (attemptResult_le s minSyllables maxSyllables maxLength
            onsets nuclei codas k)

/-- Counterexample to claim C3 as stated ("any onset/nucleus/coda lists"):
with `nuclei = ["", "ab"]` (legal lists, but violating the data-model rule
that the empty string is never a nucleus), valid bounds and `maxLength = 1`,
the builder's fallback returns `"ab"`, of length `2 > 1`: eight rounds build
only empty candidates, so the final `rng.choice(nuclei)` fallback runs and is
not length-capped. -/
theorem C3_counterexample_overlong_fallback :
    build_candidate_from_profile cexStream 0 1 1 1 [""] ["", "ab"] [""]
      = .ok ("ab", 33)
    ∧ 1 < ("ab" : String).length :=
  ⟨rfl, by decide⟩

/-- Witness for the amended C3 at a concrete profile and stream. -/
theorem C3_amended_builder_length_cap_witness :
    build_candidate_from_profile zeroStream 0 1 1 3 ["b"] ["a"] [""]
      = .ok ("ba", 4)
    ∧ ("ba" : String).length ≤ 3 :=
  ⟨rfl, C3_amended_builder_length_cap zeroStream 0 1 1 3 ["b"] ["a"] [""]
    (by decide) (by decide) (by decide) (by simp) (by simp) (by simp)
    (by decide) "ba" 4 rfl⟩

/-- Claim C10: the first drawn syllable of a round is always appended no
matter how `maxLength` compares to it (the early-stop test requires a
previously kept syllable), and afterwards the candidate is truncated; hence
with `min_syllables = max_syllables = 2`, `maxLength = 1` and single-nucleus
syllables `"ab"`, only one syllable is kept (fewer than `min_syllables`) and
the returned candidate is the truncation `"a"`. -/
theorem C10_min_syllables_not_enforced :
    (∀ (s : RandStream) (onsets nuclei codas : List String)
        (maxLength r k lengthSoFar : Nat),
      ∃ t, (buildLoop s onsets nuclei codas maxLength (r + 1) k [] lengthSoFar).1
        = drawnSyllable s k onsets nuclei codas :: t)
    ∧ (buildLoop zeroStream [""] ["ab"] [""] 1 2 1 [] 0).1.length = 1
    ∧ build_candidate_from_profile zeroStream 0 2 2 1 [""] ["ab"] [""]
        = .ok ("a", 4) := by
  refine ⟨?_, rfl, rfl⟩
  intro s onsets nuclei codas maxLength r k lengthSoFar
  exact buildLoop_first s onsets nuclei codas maxLength r k lengthSoFar

theorem make_inv (minLength maxLength minSyllables maxSyllables : Nat)
    (allowRealWords : Bool) (bannedWords : List String) (d : String → Bool)
    (g : WordGenerator)
    (h : WordGenerator.make minLength maxLength minSyllables maxSyllables
      allowRealWords bannedWords d = .ok g) :
    1 ≤ minLength ∧ minLength ≤ maxLength
    ∧ 1 ≤ minSyllables ∧ minSyllables ≤ maxSyllables
    ∧ g = ⟨minLength, maxLength, minSyllables, maxSyllables, allowRealWords,
        bannedWords.map strLower, d⟩ := by
  unfold WordGenerator.make at h
  split at h
  · exact Except.noConfusion h
  · split at h
    · exact Except.noConfusion h
    · split at h
      · exact Except.noConfusion h
      · split at h
        · exact Except.noConfusion h
        · next h1 h2 h3 h4 =>
            exact ⟨by omega, by omega, by omega, by omega,
              (Except.ok.inj h).symm⟩

theorem build_candidate_ok (s : RandStream)
    (k minSyllables maxSyllables maxLength : Nat)
    (h1 : 1 ≤ minSyllables) (h2 : minSyllables ≤ maxSyllables)
    (h3 : 1 ≤ maxLength) :
    build_candidate s k minSyllables maxSyllables maxLength
      = .ok (buildAttempts s minSyllables maxSyllables maxLength
          ONSETS NUCLEI CODAS 8 k "") := by
  unfold build_candidate build_candidate_from_profile
  rw [if_neg (by omega), if_neg (by omega), if_neg (by omega)]

theorem genLoop_ok_inv (g : WordGenerator) (s : RandStream) (budget : Int) :
    ∀ (n k : Nat) (w : String) (k2 : Nat),
      genLoop g s budget n k = .ok (w, k2) →
      g.min_length ≤ w.length ∧ w.length ≤ g.max_length
      ∧ g.banned_lower.contains w = false
      ∧ (g.allow_real_words = false → g.dict w = false) := by
  intro n
  induction n with
  | zero => intro k w k2 h; exact Except.noConfusion h
  | succ n ih =>
      intro k w k2 h
      simp only [genLoop] at h
      split at h
      · exact Except.noConfusion h
      · split at h
        · exact ih _ _ _ h
        · split at h
          · exact ih _ _ _ h
          · split at h
            · exact ih _ _ _ h
            · next c k3 heq h1 h2 h3 =>
                have hp := Except.ok.inj h
                rw [Prod.mk.injEq] at hp
                obtain ⟨rfl, rfl⟩ := hp
                push_neg at h1
                refine ⟨h1.1, h1.2, by simpa using h2, ?_⟩
                intro ha
                by_contra hd
                exact h3 ⟨ha, by simpa using hd⟩

theorem genLoop_no_invalid (g : WordGenerator) (s : RandStream) (budget : Int)
    (hS1 : 1 ≤ g.min_syllables) (hS2 : g.min_syllables ≤ g.max_syllables)
    (hL : 1 ≤ g.max_length) :
    ∀ (n k : Nat) (msg : String),
      genLoop g s budget n k ≠ .error (.invalidConfig msg) := by
  intro n
  induction n with
  | zero =>
      intro k msg h
      exact GenError.noConfusion (Except.error.inj h)
  | succ n ih =>
      intro k msg h
      simp only [genLoop] at h
      split at h
      · next e heq =>
          rw [build_candidate_ok s k _ _ _ hS1 hS2 hL] at heq
          exact Except.noConfusion heq
      · split at h
        · exact ih _ _ h
        · split at h
          · exact ih _ _ h
          · split at h
            · exact ih _ _ h
            · exact Except.noConfusion h

theorem genLoop_exhausted_msg (g : WordGenerator) (s : RandStream)
    (budget : Int) :
    ∀ (n k : Nat) (msg : String),
      genLoop g s budget n k = .error (.exhausted msg) →
      msg = "Unable to generate a non-word that satisfies the constraints after "
        ++ toString budget ++ " attempts." := by
  intro n
  induction n with
  | zero =>
      intro k msg h
      exact (GenError.exhausted.inj (Except.error.inj h)).symm
  | succ n ih =>
      intro k msg h
      simp only [genLoop] at h
      split at h
      · exact absurd (Except.error.inj h) (by intro hx; exact GenError.noConfusion hx)
      · split at h
        · exact ih _ _ h
        · split at h
          · exact ih _ _ h
          · split at h
            · exact ih _ _ h
            · exact Except.noConfusion h

/-- Claim C1: for every valid configuration, a word returned by
`generate_one` has length within `[min_length, max_length]`, its lowercase
form is in no case collision with the (lowercased) ban set, and when
`allow_real_words` is false the dictionary does not flag it. -/
theorem C1_generate_one_filters (minLength maxLength minSyllables
    maxSyllables : Nat) (allowRealWords : Bool) (bannedWords : List String)
    (d : String → Bool) (g : WordGenerator) (s : RandStream) (k : Nat)
    (m : Int) (w : String) (k2 : Nat)
    (hmk : WordGenerator.make minLength maxLength minSyllables maxSyllables
      allowRealWords bannedWords d = .ok g)
    (hgen : generate_one g s k m = .ok (w, k2)) :
    minLength ≤ w.length ∧ w.length ≤ maxLength
    ∧ (∀ b ∈ bannedWords, w ≠ strLower b)
    ∧ (allowRealWords = false → d w = false) := by
  obtain ⟨hv1, hv2, hv3, hv4, rfl⟩ := make_inv _ _ _ _ _ _ _ _ hmk
  unfold generate_one at hgen
  split at hgen
  · exact Except.noConfusion hgen
  · obtain ⟨ha, hb, hc, hd⟩ := genLoop_ok_inv _ s m _ k w k2 hgen
    refine ⟨ha, hb, ?_, hd⟩
    have hmem : w ∉ bannedWords.map strLower := by simpa using hc
    intro b hbmem heq
    exact hmem (heq ▸ List.mem_map_of_mem strLower hbmem)

/-- Witness for C1: a concrete valid configuration returning `"a"`. -/
theorem C1_generate_one_filters_witness :
    WordGenerator.make 1 10 1 1 false ["The"] neverReal = .ok witGen
    ∧ generate_one witGen zeroStream 0 5 = .ok ("a", 4)
    ∧ (1 ≤ ("a" : String).length ∧ ("a" : String).length ≤ 10
        ∧ (∀ b ∈ ["The"], ("a" : String) ≠ strLower b)
        ∧ (false = false → neverReal "a" = false)) :=
  ⟨rfl, rfl,
    C1_generate_one_filters 1 10 1 1 false ["The"] neverReal witGen
      zeroStream 0 5 "a" 4 rfl rfl⟩

/-- Claim C6: `generate_one` raises the invalid-configuration error, with no
dependence on the random source, exactly when `max_attempts < 1`; and an
attempts-exhausted error message always embeds the attempt budget. -/
theorem C6_generate_one_errors (minLength maxLength minSyllables
    maxSyllables : Nat) (allowRealWords : Bool) (bannedWords : List String)
    (d : String → Bool) (g : WordGenerator) (s : RandStream) (k : Nat)
    (m : Int)
    (hmk : WordGenerator.make minLength maxLength minSyllables maxSyllables
      allowRealWords bannedWords d = .ok g) :
    (m < 1 →
      generate_one g s k m
        = .error (.invalidConfig "max_attempts must be at least 1."))
    ∧ ((∃ msg, generate_one g s k m = .error (.invalidConfig msg)) → m < 1)
    ∧ (∀ msg, generate_one g s k m = .error (.exhausted msg) →
        1 ≤ m ∧ ∃ p q, msg = p ++ toString m ++ q) := by
  obtain ⟨hv1, hv2, hv3, hv4, rfl⟩ := make_inv _ _ _ _ _ _ _ _ hmk
  refine ⟨?_, ?_, ?_⟩
  · intro hm
    unfold generate_one
    rw [if_pos hm]
  · rintro ⟨msg, hmsg⟩
    by_contra hm
    unfold generate_one at hmsg
    rw [if_neg hm] at hmsg
    exact genLoop_no_invalid _ s m hv3 hv4
      (show (1 : Nat) ≤ maxLength by omega) _ _ msg hmsg
  · intro msg hmsg
    constructor
    · by_contra hm
      unfold generate_one at hmsg
      rw [if_pos (by omega)] at hmsg
      exact GenError.noConfusion (Except.error.inj hmsg)
    · refine ⟨"Unable to generate a non-word that satisfies the constraints after ",
        " attempts.", ?_⟩
      unfold generate_one at hmsg
      split at hmsg
      · exact absurd (Except.error.inj hmsg)
          (by intro hx; exact GenError.noConfusion hx)
      · exact genLoop_exhausted_msg _ s m _ _ msg hmsg

/-- Witness for C6: `max_attempts = 0` fails fast; a ban list covering every
candidate of the all-zeroes stream exhausts a budget of 2 and the message
names it. -/
theorem C6_generate_one_errors_witness :
    generate_one witGen zeroStream 0 0
      = .error (.invalidConfig "max_attempts must be at least 1.")
    ∧ (1 ≤ (2 : Int) ∧ ∃ p q,
        "Unable to generate a non-word that satisfies the constraints after 2 attempts."
          = p ++ toString (2 : Int) ++ q) :=
  ⟨(C6_generate_one_errors 1 10 1 1 false ["The"] neverReal witGen
      zeroStream 0 0 rfl).1 (by decide),
    (C6_generate_one_errors 1 10 1 1 false ["a"] neverReal banAGen
      zeroStream 0 2 rfl).2.2 _ rfl⟩

theorem manyLoop_unique_inv (g : WordGenerator) (s : RandStream) (count : Nat) :
    ∀ (fuel k : Nat) (results sn : List String),
      results.Nodup → (∀ w ∈ results, w ∈ sn) → results.length ≤ count →
      ∀ (ws : List String) (k2 : Nat),
        manyLoop g s count fuel k results (some sn) = .ok (some (ws, k2)) →
        ws.length = count ∧ ws.Nodup := by
  intro fuel
  induction fuel with
  | zero =>
      intro k results sn hnd hsub hlen ws k2 h
      exact Option.noConfusion (Except.ok.inj h)
  | succ fuel ih =>
      intro k results sn hnd hsub hlen ws k2 h
      simp only [manyLoop] at h
      split at h
      · next hge =>
          have hp := Option.some.inj (Except.ok.inj h)
          rw [Prod.mk.injEq] at hp
          obtain ⟨rfl, rfl⟩ := hp
          exact ⟨by omega, hnd⟩
      · next hge =>
          split at h
          · exact Except.noConfusion h
          · next word k3 heq =>
              split at h
              · exact ih _ results sn hnd hsub hlen ws k2 h
              · next hc =>
                  have hwsn : word ∉ sn := by
                    intro hw
                    exact hc (by simpa using hw)
                  refine ih _ (results ++ [word]) (word :: sn) ?_ ?_ ?_ ws k2 h
                  · rw [List.nodup_append]
                    refine ⟨hnd, List.nodup_singleton word, ?_⟩
                    intro x hx hxw
                    rw [List.mem_singleton] at hxw
                    subst hxw
                    exact hwsn (hsub x hx)
                  · intro w hw
                    rcases List.mem_append.mp hw with hw | hw
                    · exact List.mem_cons_of_mem _ (hsub w hw)
                    · rw [List.mem_singleton] at hw
                      subst hw
                      exact List.mem_cons_self _ _
                  · rw [List.length_append]
                    simp only [List.length_singleton]
                    omega

theorem generate_one_no_invalid (g : WordGenerator)
    (hS1 : 1 ≤ g.min_syllables) (hS2 : g.min_syllables ≤ g.max_syllables)
    (hL : 1 ≤ g.max_length) (s : RandStream) (k : Nat) (m : Int)
    (hm : ¬(m < 1)) (msg : String) :
    generate_one g s k m ≠ .error (.invalidConfig msg) := by
  unfold generate_one
  rw [if_neg hm]
  exact genLoop_no_invalid g s m hS1 hS2 hL _ _ msg

theorem manyLoop_no_invalid (g : WordGenerator)
    (hS1 : 1 ≤ g.min_syllables) (hS2 : g.min_syllables ≤ g.max_syllables)
    (hL : 1 ≤ g.max_length) (s : RandStream) (count : Nat) :
    ∀ (fuel k : Nat) (results : List String) (seen : Option (List String))
      (msg : String),
      manyLoop g s count fuel k results seen ≠ .error (.invalidConfig msg) := by
  intro fuel
  induction fuel with
  | zero => intro k results seen msg h; exact Except.noConfusion h
  | succ fuel ih =>
      intro k results seen msg h
      simp only [manyLoop] at h
      split at h
      · exact Except.noConfusion h
      · split at h
        · next e heq =>
            have he : e = .invalidConfig msg := Except.error.inj h
            subst he
            exact generate_one_no_invalid g hS1 hS2 hL s k 1000
              (by omega) msg heq
        · next word k3 heq =>
            split at h
            · split at h
              · exact ih _ _ _ _ h
              · exact ih _ _ _ _ h
            · exact ih _ _ _ _ h

/-- Claim C7: `generate_many` raises the invalid-configuration error exactly
when `count < 1`; and whenever a `unique=True` call returns, the result is a
list of exactly `count` pairwise-distinct words (collected in generation
order, as the loop appends accepted words). -/
theorem C7_generate_many_unique (minLength maxLength minSyllables
    maxSyllables : Nat) (allowRealWords : Bool) (bannedWords : List String)
    (d : String → Bool) (g : WordGenerator) (s : RandStream) (k : Nat)
    (count : Int) (unique : Bool) (fuel : Nat)
    (hmk : WordGenerator.make minLength maxLength minSyllables maxSyllables
      allowRealWords bannedWords d = .ok g) :
    ((count < 1) ↔
      ∃ msg, generate_many g s k count unique fuel
        = .error (.invalidConfig msg))
    ∧ (∀ (ws : List String) (k2 : Nat),
        generate_many g s k count true fuel = .ok (some (ws, k2)) →
        (ws.length : Int) = count ∧ ws.Nodup) := by
  obtain ⟨hv1, hv2, hv3, hv4, rfl⟩ := make_inv _ _ _ _ _ _ _ _ hmk
  constructor
  · constructor
    · intro hc
      exact ⟨"count must be at least 1.", by unfold generate_many; rw [if_pos hc]⟩
    · rintro ⟨msg, hmsg⟩
      by_contra hc
      unfold generate_many at hmsg
      rw [if_neg hc] at hmsg
      exact manyLoop_no_invalid _ hv3 hv4
        (show (1 : Nat) ≤ maxLength by omega) s count.toNat _ _ _ _ msg hmsg
  · intro ws k2 h
    unfold generate_many at h
    split at h
    · exact Except.noConfusion h
    · next hc =>
        have hres := manyLoop_unique_inv _ s count.toNat fuel k [] []
          List.nodup_nil (by intro w hw; cases hw) (by simp) ws k2 (by simpa using h)
        exact ⟨by omega, hres.2⟩

/-- Witness for C7: with a stream producing `"a"` then `"e"`, a unique batch
of 2 returns `["a", "e"]`. -/
theorem C7_generate_many_unique_witness :
    generate_many witGen c7Stream 0 2 true 3 = .ok (some (["a", "e"], 8))
    ∧ ((["a", "e"] : List String).length : Int) = 2
    ∧ (["a", "e"] : List String).Nodup :=
  ⟨rfl,
    ((C7_generate_many_unique 1 10 1 1 false ["The"] neverReal witGen
        c7Stream 0 2 true 3 rfl).2 ["a", "e"] 8 rfl).1,
    ((C7_generate_many_unique 1 10 1 1 false ["The"] neverReal witGen
        c7Stream 0 2 true 3 rfl).2 ["a", "e"] 8 rfl).2⟩

/-- Claim C8: `generate_one` (and `generate_many`) is a function of the
configuration and the random source alone: two generators with equal fields,
run on the same stream from the same cursor, produce identical results —
there is no hidden input. -/
theorem C8_deterministic_in_seed (g1 g2 : WordGenerator) (s : RandStream)
    (k : Nat) (m : Int)
    (h1 : g1.min_length = g2.min_length)
    (h2 : g1.max_length = g2.max_length)
    (h3 : g1.min_syllables = g2.min_syllables)
    (h4 : g1.max_syllables = g2.max_syllables)
    (h5 : g1.allow_real_words = g2.allow_real_words)
    (h6 : g1.banned_lower = g2.banned_lower)
    (h7 : g1.dict = g2.dict) :
    generate_one g1 s k m = generate_one g2 s k m
    ∧ ∀ (count : Int) (unique : Bool) (fuel : Nat),
        generate_many g1 s k count unique fuel
          = generate_many g2 s k count unique fuel := by
  cases g1 with
  | mk a1 b1 c1 d1 e1 f1 t1 =>
      cases g2 with
      | mk a2 b2 c2 d2 e2 f2 t2 =>
          have ha : a1 = a2 := h1
          have hb : b1 = b2 := h2
          have hc : c1 = c2 := h3
          have hd : d1 = d2 := h4
          have he : e1 = e2 := h5
          have hf : f1 = f2 := h6
          have ht : t1 = t2 := h7
          subst ha hb hc hd he hf ht
          exact ⟨rfl, fun _ _ _ => rfl⟩

/-- Witness for C8: two identical concrete generators agree on a run. -/
theorem C8_deterministic_in_seed_witness :
    generate_one witGen zeroStream 0 5 = generate_one witGen zeroStream 0 5
    ∧ generate_many witGen c7Stream 0 2 true 3
        = generate_many witGen c7Stream 0 2 true 3 :=
  ⟨(C8_deterministic_in_seed witGen witGen zeroStream 0 5
      rfl rfl rfl rfl rfl rfl rfl).1,
    (C8_deterministic_in_seed witGen witGen c7Stream 0 2
      rfl rfl rfl rfl rfl rfl rfl).2 2 true 3⟩

theorem genLoopWith_english (g : WordGenerator) (s : RandStream)
    (budget : Int) :
    ∀ (n k : Nat),
      genLoop g s budget n k = genLoopWith englishBuilder g s budget n k := by
  intro n
  induction n with
  | zero => intro k; rfl
  | succ n ih =>
      intro k
      simp only [genLoop, genLoopWith]
      have hb : englishBuilder s k g.min_syllables g.max_syllables g.max_length
          = build_candidate s k g.min_syllables g.max_syllables g.max_length :=
        rfl
      rw [hb]
      cases hbc : build_candidate s k g.min_syllables g.max_syllables
          g.max_length with
      | error e => rfl
      | ok p =>
          obtain ⟨c, k3⟩ := p
          split
          · rfl
          · split
            · exact ih _
            · split
              · exact ih _
              · split
                · exact ih _
                · rfl

/-- The source `WordGenerator.generate_one` always builds its candidates via
the fixed English builder (`build_candidate` over `ONSETS`/`NUCLEI`/`CODAS`):
it coincides with the builder-parameterised generator instantiated at the
English profile, for every generator state — there is no `language_plugin`
input anywhere in its state or call. -/
theorem C2_source_generator_fixed_english :
    ∀ (g : WordGenerator) (s : RandStream) (k : Nat) (m : Int),
      generate_one g s k m = generateOneWith englishBuilder g s k m := by
  intro g s k m
  unfold generate_one generateOneWith
  split
  · rfl
  · exact genLoopWith_english g s m m.toNat k
